import Mathlib

/-!
Verification of `c7n/deprecated.py` (deprecation rules, the collector and the
per-policy deprecation report).

The Python module is shallowly embedded below:
* a policy-data mapping (`dict`) becomes an association list `Dict` with
  first-match lookup (`dictGet` models `data.get`, `dictHasKey` models `in`);
* the four concrete `Deprecation` subclasses become the inductive
  `Deprecation`, with `Deprecation.check` translating each subclass's
  `check` and `Deprecation.str` translating each subclass's `__str__`
  (`Option`-valued: `none` models an exception escaping `__str__`, which
  happens for `DeprecatedOptionality` with an empty field list);
* the base-class constructor `Deprecation.__init__` becomes
  `Deprecation.init`, threading the class-level id counter `Deprecation._id`
  explicitly and returning `Except` for the `TypeError`s it can raise;
* `Context`, `check_deprecations` and `Report` are translated field by field,
  with `Report.sectionLines` standing for `Report.section` (`section` is a
  Lean keyword) and `joinLines` modelling Python's `"\n".join`.
-/

/-- A value stored in a policy-data mapping.  The deprecation checks only ever
compare a value against a string (`DeprecatedAlias.check`), so values are
modelled as strings plus an opaque non-string alternative; Python's `==`
between a string and a non-string (or `None`) is `False`, which the derived
equality on this type reproduces. -/
inductive Val where
  | str (s : String)
  | int (n : Int)
  deriving DecidableEq, Repr

/-- A Python `dict` as used for policy data: an association list with
first-match lookup (Python dicts have unique keys, so any lookup strategy
agrees on faithful inputs). -/
abbrev Dict := List (String × Val)

/-- `data.get(k)`: the first value stored under `k`, if any. -/
def dictGet : Dict → String → Option Val
  | [], _ => none
  | (k', v) :: rest, k => if k = k' then some v else dictGet rest k

/-- `k in data`: key membership. -/
def dictHasKey (d : Dict) (k : String) : Bool :=
  (dictGet d k).isSome

/-- The four concrete subclasses of `Deprecation` in `c7n/deprecated.py`
(lines 103-168), carrying exactly the per-subclass fields their `check` and
`__str__` read.  `removed_after`, `link` and `id` live on the instance record
`DeprecationRecord` below, mirroring the base-class `__init__`. -/
inductive Deprecation where
  | DeprecatedAlias (name : String)
  | DeprecatedField (name : String) (replacement : String)
  | DeprecatedElement (name : String) (replacement : String)
  | DeprecatedOptionality (fields : List String)
  deriving DecidableEq, Repr

/-- The `check(data)` methods (lines 111-112, 130-133, 147-148, 156-158).
`DeprecatedAlias.check` is `data.get("type") == self.name`: a missing key
yields Python `None` and a non-string value is never `==` a string, so both
compare unequal to `name`. -/
def Deprecation.check : Deprecation → Dict → Bool
  | .DeprecatedAlias name, data =>
      match dictGet data "type" with
      | some (Val.str v) => v = name
      | _ => false
  | .DeprecatedField name _, data =>
      dictHasKey data name
  | .DeprecatedElement _ _, _ => true
  | .DeprecatedOptionality fields, data =>
      fields.all fun key => ! dictHasKey data key

/-- The `__str__` methods (lines 108-109, 121-128, 142-145, 160-168).
`none` models an exception escaping `__str__`: `DeprecatedOptionality.__str__`
evaluates `self.fields[0]` when `len(self.fields) > 1` fails, which raises
`IndexError` on an empty field list. -/
def Deprecation.str : Deprecation → Option String
  | .DeprecatedAlias name =>
      some ("alias '" ++ name ++ "' has been deprecated")
  | .DeprecatedField name replacement =>
      -- `if ' ' not in replacement: replacement = "'" + replacement + "'"`
      -- (for a single character, Python substring containment is character
      -- membership, modelled on the string's character list)
      let r := if replacement.data.contains ' ' then replacement
               else "'" ++ replacement ++ "'"
      some ("field '" ++ name ++ "' has been deprecated (replaced by " ++ r ++ ")")
  | .DeprecatedElement name replacement =>
      some (name ++ " has been deprecated (" ++ replacement ++ ")")
  | .DeprecatedOptionality fields =>
      if fields.length > 1 then
        some ("optional fields deprecated (one of " ++
          String.intercalate " or " (fields.map fun f => "'" ++ f ++ "'") ++
          " must be specified)")
      else
        match fields with
        | [] => none
        | f :: _ => some ("optional field '" ++ f ++ "' deprecated (must be specified)")

example : (Deprecation.DeprecatedAlias "whitelist").check [("type", .str "whitelist")] = true := by decide
example : (Deprecation.DeprecatedAlias "whitelist").check [("type", .str "allow")] = false := by decide
example : (Deprecation.DeprecatedField "severity_normalized" "severity_label").str =
    some "field 'severity_normalized' has been deprecated (replaced by 'severity_label')" := by decide
example : (Deprecation.DeprecatedField "region" "region in condition block").str =
    some "field 'region' has been deprecated (replaced by region in condition block)" := by decide
example : (Deprecation.DeprecatedOptionality ["hours", "days"]).str =
    some "optional fields deprecated (one of 'hours' or 'days' must be specified)" := by decide
example : (Deprecation.DeprecatedOptionality ["tag"]).str =
    some "optional field 'tag' deprecated (must be specified)" := by decide

/-! ### The base-class constructor: `removed_after` validation and id assignment -/

/-- A Python value passed as the `removed_after` argument: `None`, a string,
or any other (non-string, non-`None`) object, abstracted by a tag since the
constructor only ever tests `is not None` and `isinstance(•, str)` on it. -/
inductive PyValue where
  | pnone
  | pstr (s : String)
  | pother (tag : Nat)
  deriving DecidableEq, Repr

/-- Split a character sequence at every hyphen; `splitDash s.data` returns
the fields of `s` between hyphens, like splitting `s` on `"-"` (the empty
string yields one empty field, `n` hyphens yield `n + 1` fields). -/
def splitDash : List Char → List (List Char)
  | [] => [[]]
  | c :: rest =>
      match splitDash rest with
      | [] => [[]]
      | g :: gs => if c = '-' then [] :: g :: gs else (c :: g) :: gs

/-- Digit characters, as matched by `\d` in `strptime`'s regex (modelled over
ASCII digits). -/
def allDigits (cs : List Char) : Bool :=
  cs.all fun c => c.isDigit

/-- `int(s)` on a digit string. -/
def strToNat (cs : List Char) : Nat :=
  cs.foldl (fun a c => a * 10 + (c.toNat - 48)) 0

/-- `calendar.isleap` as used by `datetime.date`. -/
def isLeapYear (y : Nat) : Bool :=
  (y % 4 == 0 && y % 100 != 0) || y % 400 == 0

/-- Number of days of month `m` of year `y` (`datetime.date` validation). -/
def daysInMonth (y m : Nat) : Nat :=
  if m == 2 then (if isLeapYear y then 29 else 28)
  else if m == 4 || m == 6 || m == 9 || m == 11 then 30
  else 31

/-- The month field of `strptime`'s `%m` directive, regex
`1[0-2]|0[1-9]|[1-9]` matched between the literal hyphens: a digit string of
length 1 or 2 denoting a value in `1..12` (the regex admits exactly the
strings `1`..`9`, `01`..`09`, `10`, `11`, `12`, which is this set). -/
def monthFieldOk (ms : List Char) : Bool :=
  allDigits ms && (ms.length == 1 || ms.length == 2) &&
    1 ≤ strToNat ms && strToNat ms ≤ 12

/-- The day field of `strptime`'s `%d` directive, regex
`3[01]|[12]\d|0[1-9]|[1-9]`: a digit string of length 1 or 2 denoting a value
in `1..31` (the regex admits exactly `1`..`9`, `01`..`09`, `10`..`31`). -/
def dayFieldOk (ds : List Char) : Bool :=
  allDigits ds && (ds.length == 1 || ds.length == 2) &&
    1 ≤ strToNat ds && strToNat ds ≤ 31

/-- `datetime.strptime(s, "%Y-%m-%d")` succeeds.  The compiled regex is
`\d\d\d\d` `-` month `-` day anchored at both ends (`strptime` rejects
unconverted trailing data), so an accepted string has exactly two hyphens and
digit-only fields, and splitting on `-` is faithful.  `%Y` requires exactly
four digits; the resulting `datetime.date` additionally requires the year
`≥ MINYEAR = 1` and the day to exist in the given month and year. -/
def strptimeYmd (s : String) : Bool :=
  match splitDash s.data with
  | [ys, ms, ds] =>
      ys.length == 4 && allDigits ys && 1 ≤ strToNat ys &&
      monthFieldOk ms && dayFieldOk ds &&
      strToNat ds ≤ daysInMonth (strToNat ys) (strToNat ms)
  | _ => false

/-- The spec's own acceptance predicate, for comparison with `strptimeYmd`:
a string matching `YYYY-MM-DD` (four digits, hyphen, two digits, hyphen, two
digits) that denotes a real calendar date. -/
def specStrictYMD (s : String) : Bool :=
  match splitDash s.data with
  | [ys, ms, ds] =>
      ys.length == 4 && allDigits ys && 1 ≤ strToNat ys &&
      ms.length == 2 && allDigits ms && 1 ≤ strToNat ms && strToNat ms ≤ 12 &&
      ds.length == 2 && allDigits ds && 1 ≤ strToNat ds &&
      strToNat ds ≤ daysInMonth (strToNat ys) (strToNat ms)
  | _ => false

/-- The `removed_after` validation of `Deprecation.__init__` (lines 86-92):
`None` passes, a non-string raises `TypeError("removed_after attribute must
be a string")`, and a string that `strptime` rejects raises a `TypeError`
that interpolates the offending value. -/
def checkRemovedAfter : PyValue → Except String (Option String)
  | .pnone => .ok none
  | .pother _ => .error "removed_after attribute must be a string"
  | .pstr s =>
      if strptimeYmd s then .ok (some s)
      else .error ("removed_after attribute must be a valid date in the format 'YYYY-MM-DD', got '" ++ s ++ "'")

/-- A fully constructed deprecation instance: the variant data plus the
base-class fields set by `Deprecation.__init__` (lines 94-97). -/
structure DeprecationRecord where
  rule : Deprecation
  removed_after : Option String := none
  link : Option String := none
  id : Nat := 0
  deriving DecidableEq, Repr

/-- `Deprecation.__init__` (lines 77-97): validate `removed_after`, then
record the fields and consume one value of the class-level counter
`Deprecation._id`, which is threaded explicitly as `ctr`. -/
def Deprecation.init (ctr : Nat) (rule : Deprecation) (removed_after : PyValue)
    (link : Option String) : Except String (DeprecationRecord × Nat) := do
  let ra ← checkRemovedAfter removed_after
  return ({ rule := rule, removed_after := ra, link := link, id := ctr }, ctr + 1)

example : strptimeYmd "2021-06-30" = true := by decide
example : strptimeYmd "2021-6-30" = true := by decide
example : specStrictYMD "2021-6-30" = false := by decide
example : strptimeYmd "2021-13-01" = false := by decide
example : strptimeYmd "2021-02-29" = false := by decide
example : strptimeYmd "2020-02-29" = true := by decide
example : strptimeYmd "0000-01-01" = false := by decide
example : strptimeYmd "2021-06-30x" = false := by decide

/-! ### Context, the collector, and the Report -/

/-- `Context` (lines 171-182): a free-text label around one deprecation
instance. -/
structure Context where
  context : String
  deprecation : DeprecationRecord
  deriving DecidableEq, Repr

/-- `Context.id` (lines 180-182): delegates to the wrapped instance. -/
def Context.id (c : Context) : Nat :=
  c.deprecation.id

/-- `Context.__str__` (lines 177-178): formatting the wrapped deprecation may
itself raise, which propagates. -/
def Context.str (c : Context) : Option String :=
  (c.deprecation.rule.str).map fun s => c.context ++ " " ++ s

/-- An element of a report section or of the collector's result: a bare
deprecation instance or a `Context`-wrapped one. -/
inductive RItem where
  | dep (d : DeprecationRecord)
  | ctx (c : Context)
  deriving DecidableEq, Repr

/-- `str(item)` for a section element. -/
def RItem.str : RItem → Option String
  | .dep d => d.rule.str
  | .ctx c => c.str

/-- A collaborator passed to `check_deprecations`: `data` and `deprecations`
are looked up with `getattr(•, •, default)`, so either attribute may be
absent (`none`). -/
structure Source where
  data : Option Dict := none
  deprecations : Option (List DeprecationRecord) := none

/-- `check_deprecations(source, context=None, data=None)` (lines 185-194). -/
def check_deprecations (source : Source) (context : Option String := none)
    (data : Option Dict := none) : List RItem :=
  let data' :=
    match data with
    | none => source.data.getD []
    | some d => d
  (source.deprecations.getD []).filterMap fun d =>
    if d.rule.check data' then
      some (match context with
            | none => RItem.dep d
            | some c => RItem.ctx ⟨c, d⟩)
    else none

/-- `Report` (lines 214-225): a policy name and six ordered sections, each
defaulting to empty. -/
structure Report where
  policy_name : String
  policy_fields : List RItem := []
  conditions : List RItem := []
  mode : List RItem := []
  resource : List RItem := []
  filters : List RItem := []
  actions : List RItem := []
  deriving Repr

/-- `Report.__bool__` (lines 227-241), checking the six sections in the
source's order. -/
def Report.toBool (r : Report) : Bool :=
  if r.filters.length > 0 then true
  else if r.actions.length > 0 then true
  else if r.policy_fields.length > 0 then true
  else if r.conditions.length > 0 then true
  else if r.resource.length > 0 then true
  else if r.mode.length > 0 then true
  else false

/-- Python's `"\n".join(lines)`. -/
def joinLines : List String → String
  | [] => ""
  | [l] => l
  | l :: ls => l ++ "\n" ++ joinLines ls

/-- `Report.section` (lines 262-268; renamed, `section` is a Lean keyword):
an empty section contributes nothing, a non-empty one contributes the header
`  <name>:` followed by a four-space-indented line per entry.  `none` models
an exception raised while formatting an entry. -/
def Report.sectionLines (name : String) (deprecations : List RItem) :
    Option (List String) :=
  if deprecations.length = 0 then some []
  else do
    let strs ← deprecations.mapM RItem.str
    some (("  " ++ name ++ ":") :: strs.map fun s => "    " ++ s)

/-- `Report.format` (lines 243-260).  The source locator collaborator is
modelled by its `find` method; when present, ` (<find(name)>)` is
interpolated into the header unconditionally. -/
def Report.format (r : Report) (source_locator : Option (String → String) := none) :
    Option String := do
  let location :=
    match source_locator with
    | none => ""
    | some find => " (" ++ find r.policy_name ++ ")"
  let s1 ← Report.sectionLines "attributes" r.policy_fields
  let s2 ← Report.sectionLines "condition" r.conditions
  let s3 ← Report.sectionLines "mode" r.mode
  let s4 ← Report.sectionLines "resource" r.resource
  let s5 ← Report.sectionLines "filters" r.filters
  let s6 ← Report.sectionLines "actions" r.actions
  some (joinLines (("policy '" ++ r.policy_name ++ "'" ++ location) ::
    (s1 ++ s2 ++ s3 ++ s4 ++ s5 ++ s6)))

set_option maxRecDepth 4000

example : ({ policy_name := "some-policy" } : Report).format = some "policy 'some-policy'" := by decide
example :
    ({ policy_name := "some-policy" } : Report).format (some fun _ => "somefile.yml:1234") =
      some "policy 'some-policy' (somefile.yml:1234)" := by decide
example :
    ({ policy_name := "some-policy",
       actions := [RItem.ctx ⟨"mark-for-op:", { rule := .DeprecatedOptionality ["hours", "days"] }⟩,
                   RItem.ctx ⟨"mark-for-op:", { rule := .DeprecatedOptionality ["tag"] }⟩] } : Report).format =
      some ("policy 'some-policy'\n  actions:\n" ++
        "    mark-for-op: optional fields deprecated (one of 'hours' or 'days' must be specified)\n" ++
        "    mark-for-op: optional field 'tag' deprecated (must be specified)") := by decide

/-! ### Helper lemmas -/

theorem daysInMonth_le_31 (y m : Nat) : daysInMonth y m ≤ 31 := by
  unfold daysInMonth
  split_ifs <;> simp

theorem joinLines_cons_exists (a : String) (l : List String) :
    ∃ t, joinLines (a :: l) = a ++ t := by
  cases l with
  | nil => exact ⟨"", by simp [joinLines]⟩
  | cons b bs =>
      exact ⟨"\n" ++ joinLines (b :: bs), by simp [joinLines, String.append_assoc]⟩

/-! ### The claims -/

/-- C9: for every Alias rule with name `n` and every data mapping, `check`
is true iff the mapping has key `type` mapped to the string `n`; in
particular with no `type` key the check is false. -/
theorem c9_alias_check (name : String) (data : Dict) :
    ((Deprecation.DeprecatedAlias name).check data = true ↔
      dictGet data "type" = some (Val.str name))
  ∧ (dictGet data "type" = none →
      (Deprecation.DeprecatedAlias name).check data = false) := by
  constructor
  · cases h : dictGet data "type" with
    | none => simp [Deprecation.check, h]
    | some v => cases v <;> simp [Deprecation.check, h]
  · intro h
    simp [Deprecation.check, h]

theorem c9_alias_check_witness :
    (Deprecation.DeprecatedAlias "whitelist").check [] = false :=
  (c9_alias_check "whitelist" []).2 rfl

/-- C5: for every Field rule and data mapping, `check` is true iff the
deprecated name is a key of the mapping, and the message single-quotes the
replacement iff it contains no space character, rendering it verbatim
otherwise. -/
theorem c5_field_check_and_message (name replacement : String) (data : Dict) :
    ((Deprecation.DeprecatedField name replacement).check data = true ↔
      dictHasKey data name = true)
  ∧ (replacement.data.contains ' ' = false →
      (Deprecation.DeprecatedField name replacement).str =
        some ("field '" ++ name ++ "' has been deprecated (replaced by " ++
          ("'" ++ replacement ++ "'") ++ ")"))
  ∧ (replacement.data.contains ' ' = true →
      (Deprecation.DeprecatedField name replacement).str =
        some ("field '" ++ name ++ "' has been deprecated (replaced by " ++
          replacement ++ ")")) := by
  refine ⟨Iff.rfl, fun h => ?_, fun h => ?_⟩
  · have h' : ' ' ∉ replacement.data := by simpa using h
    simp [Deprecation.str, h']
  · have h' : ' ' ∈ replacement.data := by simpa using h
    simp [Deprecation.str, h']

theorem c5_field_check_and_message_witness :
    (Deprecation.DeprecatedField "severity_normalized" "severity_label").check
        [("severity_normalized", .str "10")] = true ∧
    (Deprecation.DeprecatedField "severity_normalized" "severity_label").str =
      some ("field '" ++ "severity_normalized" ++ "' has been deprecated (replaced by " ++
        ("'" ++ "severity_label" ++ "'") ++ ")") ∧
    (Deprecation.DeprecatedField "region" "region in condition block").str =
      some ("field '" ++ "region" ++ "' has been deprecated (replaced by " ++
        "region in condition block" ++ ")") :=
  ⟨(c5_field_check_and_message "severity_normalized" "severity_label"
      [("severity_normalized", .str "10")]).1.mpr (by decide),
   (c5_field_check_and_message "severity_normalized" "severity_label" []).2.1 (by decide),
   (c5_field_check_and_message "region" "region in condition block" []).2.2 (by decide)⟩

/-- C4: for every Optionality rule with a non-empty field list and every data
mapping, `check` is true iff none of the fields is a key of the mapping; with
one field the message is `optional field '<f>' deprecated (must be
specified)`, with two or more it is `optional fields deprecated (one of
'<f1>' or '<f2>' ... must be specified)`, the quoted names joined by
` or ` in declared order. -/
theorem c4_optionality_check_and_message (fields : List String) (data : Dict)
    (hne : fields ≠ []) :
    ((Deprecation.DeprecatedOptionality fields).check data = true ↔
      ∀ f ∈ fields, dictHasKey data f = false)
  ∧ (∀ f, fields = [f] →
      (Deprecation.DeprecatedOptionality fields).str =
        some ("optional field '" ++ f ++ "' deprecated (must be specified)"))
  ∧ (2 ≤ fields.length →
      (Deprecation.DeprecatedOptionality fields).str =
        some ("optional fields deprecated (one of " ++
          String.intercalate " or " (fields.map fun f => "'" ++ f ++ "'") ++
          " must be specified)")) := by
  refine ⟨?_, fun f hf => ?_, fun h2 => ?_⟩
  · simp [Deprecation.check, List.all_eq_true]
  · subst hf; rfl
  · simp only [Deprecation.str]
    rw [if_pos (by omega : fields.length > 1)]

theorem c4_optionality_check_and_message_witness :
    ((Deprecation.DeprecatedOptionality ["days", "hours"]).check [] = true ↔
      ∀ f ∈ ["days", "hours"], dictHasKey [] f = false) ∧
    (Deprecation.DeprecatedOptionality ["tag"]).str =
      some ("optional field '" ++ "tag" ++ "' deprecated (must be specified)") ∧
    (Deprecation.DeprecatedOptionality ["hours", "days"]).str =
      some ("optional fields deprecated (one of " ++
        String.intercalate " or " (["hours", "days"].map fun f => "'" ++ f ++ "'") ++
        " must be specified)") :=
  ⟨(c4_optionality_check_and_message ["days", "hours"] [] (by decide)).1,
   (c4_optionality_check_and_message ["tag"] [] (by decide)).2.1 "tag" rfl,
   (c4_optionality_check_and_message ["hours", "days"] [] (by decide)).2.2 (by decide)⟩

/-- C10: an Optionality rule with an empty field list is accepted by the
constructor, its `check` is vacuously true on every data mapping, and
rendering its message fails (`self.fields[0]` raises `IndexError`, modelled
by `none`) — so the message operation is not total over constructible
Optionality rules. -/
theorem c10_empty_optionality (data : Dict) (ctr : Nat) (link : Option String) :
    (∃ x, Deprecation.init ctr (.DeprecatedOptionality []) .pnone link = .ok x)
  ∧ (Deprecation.DeprecatedOptionality []).check data = true
  ∧ (Deprecation.DeprecatedOptionality []).str = none :=
  ⟨⟨_, rfl⟩, rfl, rfl⟩

/-- C6: a Report is truthy iff at least one of its six sections is non-empty;
in particular an all-empty report is falsy, and formatting it with no locator
yields exactly `policy '<name>'`. -/
theorem c6_report_bool_and_empty_format (r : Report) (name : String) :
    (r.toBool = true ↔
      (r.policy_fields ≠ [] ∨ r.conditions ≠ [] ∨ r.mode ≠ [] ∨
       r.resource ≠ [] ∨ r.filters ≠ [] ∨ r.actions ≠ []))
  ∧ ({ policy_name := name } : Report).toBool = false
  ∧ ({ policy_name := name } : Report).format none =
      some ("policy '" ++ name ++ "'") := by
  refine ⟨?_, rfl, ?_⟩
  · unfold Report.toBool
    split_ifs <;> simp_all [List.length_pos]
  · simp [Report.format, Report.sectionLines, joinLines]

/-- The effective data mapping of `check_deprecations`: the explicit `data`
argument when given, otherwise the source's own `data` attribute, otherwise
the empty mapping (lines 186-187). -/
def effectiveData (source : Source) (data : Option Dict) : Dict :=
  match data with
  | none => source.data.getD []
  | some d => d

/-- How `check_deprecations` packages one kept rule: wrapped in a `Context`
built from the label iff a label is supplied (lines 191-193). -/
def wrapContext (context : Option String) (d : DeprecationRecord) : RItem :=
  match context with
  | none => RItem.dep d
  | some c => RItem.ctx ⟨c, d⟩

/-- C8: `check_deprecations` returns, in declaration order, exactly the
declared rules whose check is true against the effective data, each wrapped
iff a context label is supplied; a second call with identical inputs returns
an element-wise equal sequence (the embedding is a pure function of its
inputs, so no input mutation is possible). -/
theorem c8_check_deprecations_spec (source : Source) (context : Option String)
    (data : Option Dict) :
    (check_deprecations source context data =
      ((source.deprecations.getD []).filter
        (fun d => d.rule.check (effectiveData source data))).map (wrapContext context))
  ∧ check_deprecations source context data = check_deprecations source context data := by
  refine ⟨?_, rfl⟩
  have key : ∀ (l : List DeprecationRecord) (dd : Dict),
      (l.filterMap fun d =>
        if d.rule.check dd then
          some (match context with
                | none => RItem.dep d
                | some c => RItem.ctx ⟨c, d⟩)
        else none) =
      (l.filter fun d => d.rule.check dd).map (wrapContext context) := by
    intro l dd
    induction l with
    | nil => rfl
    | cons d rest ih =>
        by_cases h : d.rule.check dd <;>
          simp [List.filterMap_cons, List.filter_cons, h, ih, wrapContext]
  exact key _ _

/-- Inversion of a successful construction: the new instance's id is the
counter state at construction, and the counter advances by one. -/
theorem init_ok_parts {ctr : Nat} {rule : Deprecation} {v : PyValue}
    {link : Option String} {d : DeprecationRecord} {c2 : Nat}
    (h : Deprecation.init ctr rule v link = .ok (d, c2)) :
    d.id = ctr ∧ c2 = ctr + 1 := by
  cases hv : checkRemovedAfter v with
  | error e => simp [Deprecation.init, hv] at h
  | ok ra =>
      simp [Deprecation.init, hv] at h
      obtain ⟨hd, hc⟩ := h
      exact ⟨by rw [← hd], hc.symm⟩

/-- C7: two constructions performed in order (the second starting from a
counter state at least the one the first returned) receive strictly
increasing, hence distinct, ids; and a Context's id equals the id of its
wrapped rule. -/
theorem c7_ids_increase (ctr ctr' : Nat) (r1 r2 : Deprecation) (v1 v2 : PyValue)
    (l1 l2 : Option String) (d1 d2 : DeprecationRecord) (c1 c2 : Nat)
    (h1 : Deprecation.init ctr r1 v1 l1 = .ok (d1, c1))
    (h2 : Deprecation.init ctr' r2 v2 l2 = .ok (d2, c2))
    (horder : c1 ≤ ctr') :
    d1.id < d2.id ∧ d1.id ≠ d2.id ∧ ∀ c : Context, c.id = c.deprecation.id := by
  obtain ⟨hid1, hc1⟩ := init_ok_parts h1
  obtain ⟨hid2, _⟩ := init_ok_parts h2
  have hlt : d1.id < d2.id := by omega
  exact ⟨hlt, Nat.ne_of_lt hlt, fun _ => rfl⟩

theorem c7_ids_increase_witness :
    ({ rule := .DeprecatedAlias "a", removed_after := none, link := none, id := 0 } :
        DeprecationRecord).id <
      ({ rule := .DeprecatedAlias "b", removed_after := none, link := none, id := 1 } :
        DeprecationRecord).id ∧
    ({ rule := .DeprecatedAlias "a", removed_after := none, link := none, id := 0 } :
        DeprecationRecord).id ≠
      ({ rule := .DeprecatedAlias "b", removed_after := none, link := none, id := 1 } :
        DeprecationRecord).id ∧
    (⟨"mark-for-op:",
      { rule := .DeprecatedAlias "a", removed_after := none, link := none, id := 0 }⟩ :
        Context).id =
      ({ rule := .DeprecatedAlias "a", removed_after := none, link := none, id := 0 } :
        DeprecationRecord).id := by
  have h := c7_ids_increase 0 1 (.DeprecatedAlias "a") (.DeprecatedAlias "b")
    .pnone .pnone none none
    { rule := .DeprecatedAlias "a", removed_after := none, link := none, id := 0 }
    { rule := .DeprecatedAlias "b", removed_after := none, link := none, id := 1 }
    1 2 rfl rfl (by decide)
  exact ⟨h.1, h.2.1, h.2.2 _⟩

/-- C3 (amended): construction succeeds exactly when `removed_after` is
`None` or a string accepted by `strptime` with format `%Y-%m-%d` (a
four-digit year of a real calendar date, with months and days allowed to
drop their leading zero); every strictly `YYYY-MM-DD`-shaped real date is
accepted; and a rejected string raises a construction-time error carrying
the offending value. -/
theorem c3_removed_after_validation (ctr : Nat) (rule : Deprecation)
    (link : Option String) (v : PyValue) :
    ((∃ x, Deprecation.init ctr rule v link = .ok x) ↔
      (v = .pnone ∨ ∃ s, v = .pstr s ∧ strptimeYmd s = true))
  ∧ (∀ s, specStrictYMD s = true → strptimeYmd s = true)
  ∧ (∀ s, strptimeYmd s = false →
      Deprecation.init ctr rule (.pstr s) link =
        .error ("removed_after attribute must be a valid date in the format 'YYYY-MM-DD', got '" ++
          s ++ "'")) := by
  refine ⟨?_, ?_, ?_⟩
  · cases v with
    | pnone => simp [Deprecation.init, checkRemovedAfter]
    | pother tag => simp [Deprecation.init, checkRemovedAfter]
    | pstr s =>
        by_cases hs : strptimeYmd s <;>
          simp [Deprecation.init, checkRemovedAfter, hs]
  · intro s h
    unfold specStrictYMD at h
    unfold strptimeYmd
    rcases hL : splitDash s.data with _ | ⟨ys, _ | ⟨ms, _ | ⟨ds, _ | ⟨e, rest⟩⟩⟩⟩ <;>
      rw [hL] at h <;> try simp at h
    have h31 := daysInMonth_le_31 (strToNat ys) (strToNat ms)
    simp only [monthFieldOk, dayFieldOk, Bool.and_eq_true, Bool.or_eq_true,
      beq_iff_eq, decide_eq_true_eq] at h ⊢
    obtain ⟨⟨⟨⟨⟨⟨⟨⟨⟨⟨hy4, hyd⟩, hy1⟩, hm2⟩, hmd⟩, hm1⟩, hm12⟩, hd2⟩, hdd⟩, hd1⟩, hdm⟩ := h
    repeat' apply And.intro
    all_goals first | assumption | omega
  · intro s hs
    simp [Deprecation.init, checkRemovedAfter, hs]

theorem c3_removed_after_validation_witness :
    ((∃ x, Deprecation.init 0 (.DeprecatedAlias "a") (.pstr "2021-06-30") none = .ok x) ↔
      ((PyValue.pstr "2021-06-30") = .pnone ∨
        ∃ s, (PyValue.pstr "2021-06-30") = .pstr s ∧ strptimeYmd s = true)) ∧
    strptimeYmd "2021-06-30" = true ∧
    Deprecation.init 0 (.DeprecatedAlias "a") (.pstr "2021-13-01") none =
      .error ("removed_after attribute must be a valid date in the format 'YYYY-MM-DD', got '" ++
        "2021-13-01" ++ "'") :=
  ⟨(c3_removed_after_validation 0 (.DeprecatedAlias "a") none (.pstr "2021-06-30")).1,
   (c3_removed_after_validation 0 (.DeprecatedAlias "a") none .pnone).2.1
     "2021-06-30" (by decide),
   (c3_removed_after_validation 0 (.DeprecatedAlias "a") none .pnone).2.2
     "2021-13-01" (by decide)⟩

/-- C3 counterexample: `"2021-6-30"` does not match `YYYY-MM-DD` (its month
has a single digit), yet construction succeeds, so the claim that any such
string makes construction raise is false; likewise the non-string `None`
is accepted. -/
theorem c3_counterexample :
    specStrictYMD "2021-6-30" = false ∧
    Deprecation.init 0 (.DeprecatedAlias "a") (.pstr "2021-6-30") none =
      .ok ({ rule := .DeprecatedAlias "a", removed_after := some "2021-6-30",
             link := none, id := 0 }, 1) ∧
    Deprecation.init 0 (.DeprecatedAlias "a") .pnone none =
      .ok ({ rule := .DeprecatedAlias "a", removed_after := none,
             link := none, id := 0 }, 1) := by
  refine ⟨by decide, rfl, rfl⟩

/-- C2 (amended): the header line is `policy '<name>'`; when a source
locator is given, `find(name)` is interpolated and ` (<find(name)>)` is
appended unconditionally — even when `find` returns the empty string — and
with no locator there is no suffix. -/
theorem c2_header_location (r : Report) (find : String → String) :
    (∀ s, r.format (some find) = some s →
      ∃ rest, s = "policy '" ++ r.policy_name ++ "'" ++
        (" (" ++ find r.policy_name ++ ")") ++ rest)
  ∧ (∀ s, r.format none = some s →
      ∃ rest, s = "policy '" ++ r.policy_name ++ "'" ++ rest) := by
  constructor <;> intro s h <;>
    simp only [Report.format, Option.bind_eq_some, Option.some.injEq,
      Option.pure_def, Option.bind_eq_bind] at h
  · obtain ⟨s1, _, s2, _, s3, _, s4, _, s5, _, s6, _, hs⟩ := h
    obtain ⟨t, ht⟩ := joinLines_cons_exists
      ("policy '" ++ r.policy_name ++ "'" ++ (" (" ++ find r.policy_name ++ ")"))
      (s1 ++ s2 ++ s3 ++ s4 ++ s5 ++ s6)
    exact ⟨t, by rw [← hs, ht]⟩
  · obtain ⟨s1, _, s2, _, s3, _, s4, _, s5, _, s6, _, hs⟩ := h
    obtain ⟨t, ht⟩ := joinLines_cons_exists
      ("policy '" ++ r.policy_name ++ "'" ++ "")
      (s1 ++ s2 ++ s3 ++ s4 ++ s5 ++ s6)
    refine ⟨t, ?_⟩
    rw [← hs, ht]
    simp [String.append_assoc]

theorem c2_header_location_witness :
    (∃ rest, "policy 'p' (x)" =
      "policy '" ++ "p" ++ "'" ++ (" (" ++ "x" ++ ")") ++ rest) ∧
    (∃ rest, "policy 'p'" = "policy '" ++ "p" ++ "'" ++ rest) :=
  ⟨(c2_header_location ⟨"p", [], [], [], [], [], []⟩ fun _ => "x").1
      "policy 'p' (x)" rfl,
   (c2_header_location ⟨"p", [], [], [], [], [], []⟩ fun _ => "x").2
      "policy 'p'" rfl⟩

/-- C2 counterexample: a locator whose `find` returns the empty string still
produces the suffix ` ()` — the code appends whenever a locator is given,
not only when `find` returns a non-empty location. -/
theorem c2_counterexample :
    ({ policy_name := "p" } : Report).format (some fun _ => "") =
      some "policy 'p' ()" ∧
    "policy 'p' ()" ≠ "policy 'p'" :=
  ⟨rfl, by decide⟩

/-- C1: `Report.section` has no single-entry case — a section with exactly
one entry is rendered as a header line plus one indented line, not as the
single line `  <label>: <entry>` that the spec and the repository's own
tests (`test_one_condition`, `test_one_mode`, `test_one_action`) expect.
This theorem evaluates the embedded code at the failing input of
`test_one_condition`. -/
theorem c1_single_entry_section_bug :
    ({ policy_name := "some-policy",
       conditions := [RItem.dep { rule := .DeprecatedField "region" "region in condition block",
                                  removed_after := some "2021-06-30" }] } : Report).format none =
      some ("policy 'some-policy'\n  condition:\n    field 'region' has been deprecated (replaced by region in condition block)") ∧
    ("policy 'some-policy'\n  condition:\n    field 'region' has been deprecated (replaced by region in condition block)" ≠
      "policy 'some-policy'\n  condition: field 'region' has been deprecated (replaced by region in condition block)") :=
  ⟨rfl, by decide⟩
